import Mathlib

/-
Verification of the acquisitions authentication core.

The embedding follows the source files:
  * src/services/auth.service.js  — hashPassword, comparePassword,
    createUser, authenticateUser, and the signup HTTP handler
    (auth.controller.js content appended in the same source capture);
  * src/services/users.services.js — getAllUsers.

Database state is the `users` table (src/models/user.model.js:
id, name, email, password, role, created_at, updated_at) together with
the sequence counter for ids and the database clock used for the
defaultNow timestamps.  Every service call is modelled in state-passing
style: it returns its result together with the table state after the
call, so read-only behaviour and frame conditions are expressible.

bcrypt is an external library; it is modelled by its contract (spec
section 4.1): a digest string is either a well-formed bcrypt digest,
which records the plaintext it hashes (bcrypt verification succeeds
exactly on that plaintext), or a malformed string, on which the library
fails.  We model the stored digest by this parse.
-/

namespace Acquisitions

/-- A password digest as stored in the users.password column, modelled
by its parse: a well-formed bcrypt digest recording the hashed
plaintext, or a malformed string on which the bcrypt library fails. -/
inductive Digest where
  | bcrypt (plain : String)
  | malformed (raw : String)
deriving DecidableEq, Repr

/-- Model of bcrypt.hash(password, 10): salted adaptive hash with fixed
work factor, always producing a well-formed digest. -/
def bcryptHash (password : String) : Digest :=
  Digest.bcrypt password

/-- Model of bcrypt.compare(password, digest): `some b` on a well-formed
digest (`b` true exactly when the plaintext matches), `none` when the
library itself fails, i.e. on malformed digest input. -/
def bcryptCompare (password : String) (digest : Digest) : Option Bool :=
  match digest with
  | Digest.bcrypt plain => some (password == plain)
  | Digest.malformed _ => none

/-- hashPassword from auth.service.js: wraps bcrypt.hash(password, 10);
the catch branch rethrows "Error hashing the password" on library
failure (resource exhaustion, not modelled: the modelled library call
always succeeds). -/
def hashPassword (password : String) : Except String Digest :=
  Except.ok (bcryptHash password)

/-- comparePassword from auth.service.js: wraps
bcrypt.compare(password, hashedPassword); the catch branch rethrows
"Error comparing the password" when the library call fails. -/
def comparePassword (password : String) (hashedPassword : Digest) :
    Except String Bool :=
  match bcryptCompare password hashedPassword with
  | some b => Except.ok b
  | none => Except.error "Error comparing the password"

/-- A row of the users table (src/models/user.model.js): id, name,
email, password (the stored digest), role, created_at, updated_at. -/
structure User where
  id : Nat
  name : String
  email : String
  password : Digest
  role : String
  created_at : Nat
  updated_at : Nat
deriving DecidableEq, Repr

/-- Database state: the rows of the users table, the id sequence
counter, and the clock supplying defaultNow timestamps. -/
structure DBState where
  rows : List User
  nextId : Nat
  now : Nat
deriving DecidableEq, Repr

/-- db.select().from(users).where(eq(users.email, email)).limit(1):
the first stored row whose email matches exactly (case-sensitive). -/
def findByEmail (st : DBState) (email : String) : Option User :=
  st.rows.find? (fun u => u.email == email)

/-- The projection returned by createUser's .returning clause:
exactly id, name, email, role, created_at. -/
structure PublicUser where
  id : Nat
  name : String
  email : String
  role : String
  created_at : Nat
deriving DecidableEq, Repr

/-- The value returned by authenticateUser on success: the stored row
with the password field removed (rest destructuring). -/
structure SafeUser where
  id : Nat
  name : String
  email : String
  role : String
  created_at : Nat
  updated_at : Nat
deriving DecidableEq, Repr

/-- The projection of a stored row to the createUser return shape. -/
def publicOf (u : User) : PublicUser :=
  { id := u.id, name := u.name, email := u.email, role := u.role,
    created_at := u.created_at }

/-- The projection of a stored row to the authenticateUser return
shape: every field except password. -/
def safeOf (u : User) : SafeUser :=
  { id := u.id, name := u.name, email := u.email, role := u.role,
    created_at := u.created_at, updated_at := u.updated_at }

/-- The message of the duplicate-user error thrown by createUser. -/
def duplicateEmailMessage : String := "User with this email already exists"

/-- The message of the invalid-credentials error thrown by
authenticateUser, identical for unknown email and wrong password. -/
def invalidCredentialsMessage : String := "Invalid email or password"

/-- createUser from auth.service.js.  The argument destructuring
defaults role to 'user' when the field is absent (modelled by an
Option).  The body: select the first row with the given email; if one
exists, throw the duplicate-user error; otherwise hash the password and
insert a row with database-assigned id and timestamps, returning the
id, name, email, role, created_at projection.  The catch branch
rethrows, so errors propagate unchanged and leave the table as is. -/
def createUser (name email password : String) (roleOpt : Option String)
    (st : DBState) : Except String PublicUser × DBState :=
  let role := roleOpt.getD "user"
  match findByEmail st email with
  | some _ => (Except.error duplicateEmailMessage, st)
  | none =>
    match hashPassword password with
    | Except.error e => (Except.error e, st)
    | Except.ok password_hash =>
      let newUser : User :=
        { id := st.nextId, name := name, email := email,
          password := password_hash, role := role,
          created_at := st.now, updated_at := st.now }
      (Except.ok (publicOf newUser),
       { st with rows := st.rows ++ [newUser], nextId := st.nextId + 1 })

/-- authenticateUser from auth.service.js: select the first row with
the given email; throw the invalid-credentials error if none; compare
the password against the stored digest (errors from comparePassword
propagate via the rethrowing catch); throw the same invalid-credentials
error on mismatch; on match return the row minus its password field.
Only a select is executed, so the table is returned unchanged. -/
def authenticateUser (email password : String) (st : DBState) :
    Except String SafeUser × DBState :=
  match findByEmail st email with
  | none => (Except.error invalidCredentialsMessage, st)
  | some user =>
    match comparePassword password user.password with
    | Except.error e => (Except.error e, st)
    | Except.ok isMatch =>
      if isMatch then (Except.ok (safeOf user), st)
      else (Except.error invalidCredentialsMessage, st)

/-- An entry returned by getAllUsers: the columns selected in
users.services.js — id, email, name, role, created_at, updated_at. -/
structure UserView where
  id : Nat
  email : String
  name : String
  role : String
  created_at : Nat
  updated_at : Nat
deriving DecidableEq, Repr

/-- The projection of a stored row to the getAllUsers entry shape. -/
def viewOf (u : User) : UserView :=
  { id := u.id, email := u.email, name := u.name, role := u.role,
    created_at := u.created_at, updated_at := u.updated_at }

/-- getAllUsers from users.services.js: one select over the whole
users table, projecting each row to id, email, name, role, created_at,
updated_at.  Read-only, so the table is returned unchanged. -/
def getAllUsers (st : DBState) : List UserView × DBState :=
  (st.rows.map (fun u =>
    { id := u.id, email := u.email, name := u.name, role := u.role,
      created_at := u.created_at, updated_at := u.updated_at }), st)

/-- The catch clause of the signup handler in auth.controller.js: the
duplicate-user message is mapped to status 409; any other error goes to
next(e), the generic error handler, which answers 500 (spec section
7). -/
def signupCatchStatus (message : String) : Nat :=
  if message = duplicateEmailMessage then 409 else 500

/-- The message of the TypeError raised by the statement
const \x7b name, email, role \x7d = validationResult.data(); in the
signup handler: safeParse returns data as a plain property, so calling
it as a function throws. -/
def dataNotAFunctionMessage : String :=
  "validationResult.data is not a function"

/-- The signup HTTP handler from auth.controller.js, modelled on the
request body's validation outcome (the Zod schema itself lives in
auth.validation.js).  An invalid body is answered 400.  For a valid
body the handler evaluates validationResult.data() — a TypeError, since
data is a property of the safeParse result, not a method — and the
catch clause routes that message: it is not the duplicate-user message,
so the request falls through to the generic 500 handler.  The handler
never calls createUser, so the table is unchanged on every path. -/
def signup (validationOk : Bool) (st : DBState) : Nat × DBState :=
  if !validationOk then (400, st)
  else (signupCatchStatus dataNotAFunctionMessage, st)

/-- A sample stored user for concrete evaluations. -/
def sampleUser : User :=
  { id := 1, name := "A", email := "a@x.com",
    password := Digest.bcrypt "p1", role := "user",
    created_at := 0, updated_at := 0 }

/-- A sample table holding exactly sampleUser. -/
def sampleDB : DBState := { rows := [sampleUser], nextId := 2, now := 1 }

/-- The empty users table. -/
def emptyDB : DBState := { rows := [], nextId := 1, now := 0 }

/-- C1: the claim says a validated signup body with a fresh email is
answered 201 carrying the new user's id, name, email, role and
created_at.  The handler in the source does neither: after validation
succeeds it evaluates validationResult.data() — a TypeError, because
data is a property of the safeParse result — so the request reaches the
generic error handler and is answered 500; createUser is never invoked
and no user is created.  Evaluated here at the failing input: a valid
body on the empty table. -/
theorem signup_valid_body_answers_500_not_201 :
    signup true emptyDB = (500, emptyDB) ∧ (500 : Nat) ≠ 201 := by
  exact ⟨by decide, by decide⟩

/-- C2: when some stored row already has email e, createUser with email
e fails with the duplicate-user message and returns the table
unchanged, and the signup handler's catch clause maps that message to
status 409. -/
theorem createUser_duplicate_email_rejected (st : DBState)
    (n e p : String) (r : Option String) (u : User)
    (hu : u ∈ st.rows) (he : u.email = e) :
    createUser n e p r st = (Except.error duplicateEmailMessage, st) ∧
      signupCatchStatus duplicateEmailMessage = 409 := by
  have hne : findByEmail st e ≠ none := by
    simp only [findByEmail, ne_eq, List.find?_eq_none, not_forall]
    exact ⟨u, hu, by simp [he]⟩
  obtain ⟨v, hv⟩ := Option.ne_none_iff_exists'.mp hne
  exact ⟨by simp [createUser, hv], by simp [signupCatchStatus]⟩

/-- Witness for C2 at a concrete table already holding a@x.com. -/
theorem createUser_duplicate_email_rejected_witness :
    createUser "B" "a@x.com" "p2" none sampleDB =
      (Except.error duplicateEmailMessage, sampleDB) ∧
      signupCatchStatus duplicateEmailMessage = 409 :=
  createUser_duplicate_email_rejected sampleDB "B" "a@x.com" "p2" none
    sampleUser (by simp [sampleDB]) (by decide)

/-- C3: the two failing authenticateUser calls — unknown email, and
known email with a password failing hash verification — produce errors
with the same message (and both are plain thrown errors, so the same
shape): the caller cannot distinguish the causes. -/
theorem authenticateUser_failures_indistinguishable (st : DBState)
    (e1 p1 e2 p2 : String) (u : User)
    (h1 : findByEmail st e1 = none)
    (h2 : findByEmail st e2 = some u)
    (h3 : comparePassword p2 u.password = Except.ok false) :
    (authenticateUser e1 p1 st).1 = Except.error invalidCredentialsMessage ∧
      (authenticateUser e2 p2 st).1 = Except.error invalidCredentialsMessage := by
  constructor
  · simp [authenticateUser, h1]
  · simp [authenticateUser, h2, h3]

/-- Witness for C3: unknown email and wrong password against the sample
table both yield the invalid-credentials message. -/
theorem authenticateUser_failures_indistinguishable_witness :
    (authenticateUser "b@x.com" "p1" sampleDB).1 =
        Except.error invalidCredentialsMessage ∧
      (authenticateUser "a@x.com" "wrong" sampleDB).1 =
        Except.error invalidCredentialsMessage :=
  authenticateUser_failures_indistinguishable sampleDB "b@x.com" "p1"
    "a@x.com" "wrong" sampleUser (by decide) (by decide) rfl

/-- C4: when no stored row has email e, createUser with that email
succeeds, and authenticateUser with the same email and password on the
resulting table succeeds as well. -/
theorem signin_succeeds_after_signup (st : DBState)
    (n e p : String) (r : Option String)
    (hfree : findByEmail st e = none) :
    ∃ pub st' su, createUser n e p r st = (Except.ok pub, st') ∧
      (authenticateUser e p st').1 = Except.ok su := by
  refine ⟨publicOf
      { id := st.nextId, name := n, email := e, password := bcryptHash p,
        role := r.getD "user", created_at := st.now, updated_at := st.now },
    { st with
        rows := st.rows ++
          [{ id := st.nextId, name := n, email := e,
             password := bcryptHash p, role := r.getD "user",
             created_at := st.now, updated_at := st.now }],
        nextId := st.nextId + 1 },
    safeOf
      { id := st.nextId, name := n, email := e, password := bcryptHash p,
        role := r.getD "user", created_at := st.now, updated_at := st.now },
    ?_, ?_⟩
  · simp [createUser, hfree, hashPassword]
  · have h0 : st.rows.find? (fun u => u.email == e) = none := hfree
    simp [authenticateUser, findByEmail, List.find?_append, h0,
      comparePassword, bcryptCompare, bcryptHash, safeOf]

/-- Witness for C4: signup then signin with the same credentials on the
empty table. -/
theorem signin_succeeds_after_signup_witness :
    ∃ pub st' su,
      createUser "A" "a@x.com" "p1" none emptyDB = (Except.ok pub, st') ∧
        (authenticateUser "a@x.com" "p1" st').1 = Except.ok su :=
  signin_succeeds_after_signup emptyDB "A" "a@x.com" "p1" none (by decide)

/-- C5: a successful createUser call returns exactly the
id, name, email, role, created_at projection of some row of the
resulting table (the PublicUser shape carries no password field), and a
successful authenticateUser call returns exactly the stored matching
row with the password field removed (the SafeUser shape). -/
theorem results_are_password_free_projections :
    (∀ (st : DBState) (n e p : String) (r : Option String)
        (pub : PublicUser) (st' : DBState),
        createUser n e p r st = (Except.ok pub, st') →
        ∃ u, u ∈ st'.rows ∧ pub = publicOf u) ∧
      (∀ (st : DBState) (e p : String) (su : SafeUser) (st' : DBState),
        authenticateUser e p st = (Except.ok su, st') →
        ∃ u, u ∈ st.rows ∧ u.email = e ∧ su = safeOf u) := by
  constructor
  · intro st n e p r pub st' h
    cases hf : findByEmail st e with
    | some v => simp [createUser, hf] at h
    | none =>
      simp [createUser, hf, hashPassword] at h
      obtain ⟨h1, h2⟩ := h
      subst h2
      exact ⟨_, by simp, h1.symm⟩
  · intro st e p su st' h
    cases hf : findByEmail st e with
    | none => simp [authenticateUser, hf] at h
    | some u =>
      have hf' : st.rows.find? (fun x => x.email == e) = some u := hf
      cases hc : comparePassword p u.password with
      | error m => simp [authenticateUser, hf, hc] at h
      | ok b =>
        cases b with
        | false => simp [authenticateUser, hf, hc] at h
        | true =>
          simp [authenticateUser, hf, hc] at h
          refine ⟨u, List.mem_of_find?_eq_some hf', ?_, h.1.symm⟩
          simpa using List.find?_some hf'

/-- Witness for C5: the createUser half, applied to a concrete
successful call on the empty table. -/
theorem results_are_password_free_projections_witness :
    ∃ u, u ∈ ({ rows := [sampleUser], nextId := 2, now := 0 } : DBState).rows ∧
      publicOf sampleUser = publicOf u :=
  results_are_password_free_projections.1 emptyDB "A" "a@x.com" "p1" none
    (publicOf sampleUser) { rows := [sampleUser], nextId := 2, now := 0 } rfl

/-- C6: verifying a plaintext against its own hash succeeds, and
verifying it against the hash of any other plaintext fails.  The bcrypt
library is modelled by its contract: hashing is injective up to
verification. -/
theorem hash_verify_roundtrip (p q : String) (hpq : p ≠ q) :
    (∀ d, hashPassword p = Except.ok d →
      comparePassword p d = Except.ok true) ∧
      (∀ d, hashPassword q = Except.ok d →
        comparePassword p d = Except.ok false) := by
  constructor
  · intro d hd
    obtain rfl : bcryptHash p = d := by simpa [hashPassword] using hd
    simp [comparePassword, bcryptCompare, bcryptHash]
  · intro d hd
    obtain rfl : bcryptHash q = d := by simpa [hashPassword] using hd
    simp [comparePassword, bcryptCompare, bcryptHash, hpq]

/-- Witness for C6 at the concrete plaintexts p1 and p2. -/
theorem hash_verify_roundtrip_witness :
    comparePassword "p1" (bcryptHash "p1") = Except.ok true ∧
      comparePassword "p1" (bcryptHash "p2") = Except.ok false :=
  ⟨(hash_verify_roundtrip "p1" "p2" (by decide)).1 (bcryptHash "p1") rfl,
   (hash_verify_roundtrip "p1" "p2" (by decide)).2 (bcryptHash "p2") rfl⟩

/-- C7: on a well-formed digest comparePassword never throws — it
returns exactly the boolean outcome of the comparison, false on a
mismatch — and its error branch is reachable only on a digest on which
the bcrypt library itself fails, i.e. a malformed one. -/
theorem comparePassword_no_throw_on_wellformed (p plain : String) :
    comparePassword p (Digest.bcrypt plain) = Except.ok (p == plain) ∧
      (∀ (d : Digest) (m : String), comparePassword p d = Except.error m →
        ∃ raw, d = Digest.malformed raw) := by
  constructor
  · simp [comparePassword, bcryptCompare]
  · intro d m h
    cases d with
    | bcrypt q => simp [comparePassword, bcryptCompare] at h
    | malformed raw => exact ⟨raw, rfl⟩

/-- Witness for C7: a concrete mismatch returns false without an
error, and a concrete error case has a malformed digest. -/
theorem comparePassword_no_throw_on_wellformed_witness :
    comparePassword "a" (Digest.bcrypt "b") = Except.ok ("a" == "b") ∧
      ∃ raw, Digest.malformed "x" = Digest.malformed raw :=
  ⟨(comparePassword_no_throw_on_wellformed "a" "b").1,
   (comparePassword_no_throw_on_wellformed "a" "b").2 (Digest.malformed "x")
     "Error comparing the password" rfl⟩

/-- C8: getAllUsers returns exactly one entry per stored row — the
id, email, name, role, created_at, updated_at projection of that row;
the UserView shape has no password field. -/
theorem getAllUsers_one_view_per_user (st : DBState) :
    (getAllUsers st).1 = st.rows.map viewOf ∧
      ((getAllUsers st).1).length = st.rows.length := by
  constructor
  · simp [getAllUsers, viewOf]
  · simp [getAllUsers]

/-- C9: no operation updates or deletes a stored row: authenticateUser
and getAllUsers return the table unchanged on every path, and
createUser returns the table with at most one row appended after all
pre-existing rows. -/
theorem core_reads_never_mutate (st : DBState)
    (n e p e2 p2 : String) (r : Option String) :
    (authenticateUser e2 p2 st).2 = st ∧ (getAllUsers st).2 = st ∧
      ∃ added, (createUser n e p r st).2.rows = st.rows ++ added ∧
        added.length ≤ 1 := by
  refine ⟨?_, rfl, ?_⟩
  · cases hf : findByEmail st e2 with
    | none => simp [authenticateUser, hf]
    | some u =>
      cases hc : comparePassword p2 u.password with
      | error m => simp [authenticateUser, hf, hc]
      | ok b => cases b <;> simp [authenticateUser, hf, hc]
  · cases hf : findByEmail st e with
    | some u => exact ⟨[], by simp [createUser, hf], by simp⟩
    | none =>
      exact ⟨[{ id := st.nextId, name := n, email := e,
                password := bcryptHash p, role := r.getD "user",
                created_at := st.now, updated_at := st.now }],
        by simp [createUser, hf, hashPassword], by simp⟩

/-- C10: a createUser call whose argument omits the role field creates
a user with role 'user', and the returned projection carries role
'user' as well. -/
theorem createUser_role_defaults_to_user (st : DBState) (n e p : String)
    (pub : PublicUser) (st' : DBState)
    (h : createUser n e p none st = (Except.ok pub, st')) :
    pub.role = "user" ∧
      ∃ u, u ∈ st'.rows ∧ u.role = "user" ∧ pub = publicOf u := by
  cases hf : findByEmail st e with
  | some v => simp [createUser, hf] at h
  | none =>
    simp [createUser, hf, hashPassword] at h
    obtain ⟨h1, h2⟩ := h
    subst h2
    refine ⟨?_, _, by simp, rfl, h1.symm⟩
    rw [← h1]
    rfl

/-- Witness for C10: a role-less createUser call on the empty table
yields role 'user'. -/
theorem createUser_role_defaults_to_user_witness :
    (publicOf sampleUser).role = "user" ∧
      ∃ u, u ∈ ({ rows := [sampleUser], nextId := 2, now := 0 } : DBState).rows ∧
        u.role = "user" ∧ publicOf sampleUser = publicOf u :=
  createUser_role_defaults_to_user emptyDB "A" "a@x.com" "p1"
    (publicOf sampleUser) { rows := [sampleUser], nextId := 2, now := 0 } rfl

end Acquisitions
